import Mathlib

/-!
# Haversine: great-circle distance calculator

A shallow embedding of `haversine.cpp`. The program is one straight-line `main`:
an argument-count check, four `sscanf` conversions, an echo line, the haversine
computation and two result lines.

The numeric type and the library routines the program calls (`<cmath>`, the boost
constant `pi`, `sscanf`, the stream insertion of a `double`) are parameters of the
embedding, so that `main` itself is an ordinary executable function. The theorems
about distances instantiate the library with the exact real functions.
-/

namespace Haversine

/-- The numeric routines `main` calls. `sqrt` and `asin` return `none` where the C
routine reports a domain error (its result is then not a number). -/
structure Libm (α : Type) where
  pi : α
  sin : α → α
  cos : α → α
  sqrt : α → Option α
  asin : α → Option α

/-- Everything `main` takes from outside the source file. -/
structure Platform (α : Type) where
  libm : Libm α
  /-- The value `sscanf(s, "%lf", &x)` stores, `none` when no conversion is made. -/
  sscanf_lf : String → Option α
  /-- The text `std::cout << std::setprecision(p) << x` writes; `none` is a value that
  is not a number. -/
  show_double : Nat → Option α → String
  /-- What the four locals `lat_1_deg, lon_1_deg, lat_2_deg, lon_2_deg` hold before
  the `sscanf` calls. -/
  indeterminate : Fin 4 → α

/-- Line 55: `const double radius_earth_miles = 3963;`. -/
def radius_earth_miles {α : Type} [Field α] : α := 3963

/-- Line 56: `const double radius_earth_km = 6378;`. -/
def radius_earth_km {α : Type} [Field α] : α := 6378

/-- The locals of `main` that lines 38 to 64 assign. -/
structure Locals (α : Type) where
  lat_1_rad : α
  lon_1_rad : α
  lat_2_rad : α
  lon_2_rad : α
  delta_lat : α
  delta_lon : α
  sdlat : α
  sdlon : α
  t : Option α
  distance_miles : Option α
  distance_km : Option α

/-- Lines 38 to 64 of `main`: the computation on the four parsed degree values. -/
def compute {α : Type} [Field α] (m : Libm α)
    (lat_1_deg lon_1_deg lat_2_deg lon_2_deg : α) : Locals α :=
  let lat_1_rad := lat_1_deg * (m.pi / 180)
  let lon_1_rad := lon_1_deg * (m.pi / 180)
  let lat_2_rad := lat_2_deg * (m.pi / 180)
  let lon_2_rad := lon_2_deg * (m.pi / 180)
  let delta_lat := lat_1_rad - lat_2_rad
  let delta_lon := lon_1_rad - lon_2_rad
  let sdlat := (m.sin (delta_lat / 2)) ^ 2
  let sdlon := (m.sin (delta_lon / 2)) ^ 2
  let t := m.sqrt (sdlat + (m.cos lat_1_rad * m.cos lat_2_rad * sdlon))
  let distance_miles := (t.bind m.asin).map (fun a => 2 * radius_earth_miles * a)
  let distance_km := (t.bind m.asin).map (fun a => 2 * radius_earth_km * a)
  { lat_1_rad := lat_1_rad, lon_1_rad := lon_1_rad,
    lat_2_rad := lat_2_rad, lon_2_rad := lon_2_rad,
    delta_lat := delta_lat, delta_lon := delta_lon,
    sdlat := sdlat, sdlon := sdlon, t := t,
    distance_miles := distance_miles, distance_km := distance_km }

/-- What a run of the program leaves behind: the lines written to standard output
(each one ended by `std::endl`) and the value `main` returns. -/
structure Outcome where
  stdout : List String
  status : Int
  deriving DecidableEq, Repr

/-- Line 22: the usage text. -/
def usage : String := "Usage: haversine lat1 lon1 lat2 lon2"

/-- The function `main`; `argv` holds the program name followed by the arguments, and
`argc` is its length. -/
def main {α : Type} [Field α] (p : Platform α) (argv : List String) : Outcome :=
  if h : argv.length ≠ 5 then
    { stdout := [usage], status := -1 }
  else
    let lat_1_deg := (p.sscanf_lf argv[1]).getD (p.indeterminate 0)
    let lon_1_deg := (p.sscanf_lf argv[2]).getD (p.indeterminate 1)
    let lat_2_deg := (p.sscanf_lf argv[3]).getD (p.indeterminate 2)
    let lon_2_deg := (p.sscanf_lf argv[4]).getD (p.indeterminate 3)
    let echo := "Calculating distance between ("
      ++ p.show_double 9 (some lat_1_deg) ++ ","
      ++ p.show_double 9 (some lon_1_deg) ++ ")" ++ " and ("
      ++ p.show_double 9 (some lat_2_deg) ++ ","
      ++ p.show_double 9 (some lon_2_deg) ++ ")"
    let r := compute p.libm lat_1_deg lon_1_deg lat_2_deg lon_2_deg
    { stdout := [echo, "Distance: ",
        "  " ++ p.show_double 4 r.distance_miles ++ " miles",
        "  " ++ p.show_double 4 r.distance_km ++ " kilometers"],
      status := 0 }

/-- The library over the real numbers: the exact functions, with `sqrt` defined on the
non-negative reals and `asin` on `[-1, 1]`. This is the idealisation in exact real
arithmetic: the constant is the number pi itself and no operation rounds. -/
noncomputable def realLibm : Libm ℝ where
  pi := Real.pi
  sin := Real.sin
  cos := Real.cos
  sqrt := fun x => if 0 ≤ x then some (Real.sqrt x) else none
  asin := fun x => if -1 ≤ x ∧ x ≤ 1 then some (Real.arcsin x) else none

/-- Line 38: the conversion `deg * (pi / 180)` over the reals. -/
noncomputable def radians (deg : ℝ) : ℝ := deg * (Real.pi / 180)

/-- The great-circle distance on a sphere of radius `R` between two points given in
degrees, by the central angle of the spherical law of cosines. -/
noncomputable def great_circle_distance (R lat1 lon1 lat2 lon2 : ℝ) : ℝ :=
  R * Real.arccos (Real.sin (radians lat1) * Real.sin (radians lat2)
    + Real.cos (radians lat1) * Real.cos (radians lat2)
      * Real.cos (radians lon1 - radians lon2))

/-- The formula as the comment at lines 59 to 61 writes it, on radian values, with
the longitude difference taken as `lon2 - lon1`. -/
noncomputable def documented_distance (r lat1 lon1 lat2 lon2 : ℝ) : ℝ :=
  2 * r * Real.arcsin (Real.sqrt (Real.sin ((lat1 - lat2) / 2) ^ 2
    + Real.cos lat1 * Real.cos lat2 * Real.sin ((lon2 - lon1) / 2) ^ 2))

/-! ## Trigonometric groundwork -/

/-- The cosine of the central angle between two points given in radians. -/
noncomputable def central_cos (a x b y : ℝ) : ℝ :=
  Real.sin a * Real.sin b + Real.cos a * Real.cos b * Real.cos (x - y)

/-- The radicand of line 62, on radian values. -/
noncomputable def radicand (a x b y : ℝ) : ℝ :=
  Real.sin ((a - b) / 2) ^ 2 + (Real.cos a * Real.cos b * Real.sin ((x - y) / 2) ^ 2)

theorem radicand_eq_central (a x b y : ℝ) :
    radicand a x b y = (1 - central_cos a x b y) / 2 := by
  unfold radicand central_cos
  rw [Real.sin_sq_eq_half_sub, Real.sin_sq_eq_half_sub]
  have h1 : 2 * ((a - b) / 2) = a - b := by ring
  have h2 : 2 * ((x - y) / 2) = x - y := by ring
  rw [h1, h2, Real.cos_sub a b]
  ring

theorem central_cos_le_one (a x b y : ℝ) : central_cos a x b y ≤ 1 := by
  unfold central_cos
  have k1 := Real.cos_le_one (x - y)
  have k2 := Real.neg_one_le_cos (x - y)
  have c1 := Real.cos_le_one (a - b)
  have c2 := Real.neg_one_le_cos (a + b)
  rw [Real.cos_sub] at c1
  rw [Real.cos_add] at c2
  nlinarith [mul_nonneg (by linarith : (0:ℝ) ≤ 1 + Real.cos (x - y))
      (by linarith : (0:ℝ) ≤ 1 - (Real.cos a * Real.cos b + Real.sin a * Real.sin b)),
    mul_nonneg (by linarith : (0:ℝ) ≤ 1 - Real.cos (x - y))
      (by linarith : (0:ℝ) ≤ 1 + (Real.cos a * Real.cos b - Real.sin a * Real.sin b))]

theorem neg_one_le_central_cos (a x b y : ℝ) : -1 ≤ central_cos a x b y := by
  unfold central_cos
  have k1 := Real.cos_le_one (x - y)
  have k2 := Real.neg_one_le_cos (x - y)
  have c1 := Real.neg_one_le_cos (a - b)
  have c2 := Real.cos_le_one (a + b)
  rw [Real.cos_sub] at c1
  rw [Real.cos_add] at c2
  nlinarith [mul_nonneg (by linarith : (0:ℝ) ≤ 1 + Real.cos (x - y))
      (by linarith : (0:ℝ) ≤ 1 + (Real.cos a * Real.cos b + Real.sin a * Real.sin b)),
    mul_nonneg (by linarith : (0:ℝ) ≤ 1 - Real.cos (x - y))
      (by linarith : (0:ℝ) ≤ 1 - (Real.cos a * Real.cos b - Real.sin a * Real.sin b))]

theorem radicand_nonneg (a x b y : ℝ) : 0 ≤ radicand a x b y := by
  rw [radicand_eq_central]
  linarith [central_cos_le_one a x b y]

theorem radicand_le_one (a x b y : ℝ) : radicand a x b y ≤ 1 := by
  rw [radicand_eq_central]
  linarith [neg_one_le_central_cos a x b y]

theorem sqrt_radicand_le_one (a x b y : ℝ) : Real.sqrt (radicand a x b y) ≤ 1 :=
  Real.sqrt_le_iff.mpr ⟨by norm_num, by simpa using radicand_le_one a x b y⟩

theorem realLibm_sqrt {x : ℝ} (h : 0 ≤ x) : realLibm.sqrt x = some (Real.sqrt x) :=
  if_pos h

theorem realLibm_asin {x : ℝ} (h1 : -1 ≤ x) (h2 : x ≤ 1) :
    realLibm.asin x = some (Real.arcsin x) :=
  if_pos ⟨h1, h2⟩

theorem two_arcsin_sqrt (c : ℝ) (h1 : -1 ≤ c) (h2 : c ≤ 1) :
    2 * Real.arcsin (Real.sqrt ((1 - c) / 2)) = Real.arccos c := by
  have h0 := Real.arccos_nonneg c
  have hpi := Real.arccos_le_pi c
  have hc : Real.cos (Real.arccos c) = c := Real.cos_arccos h1 h2
  have hs : (1 - c) / 2 = Real.sin (Real.arccos c / 2) ^ 2 := by
    rw [Real.sin_sq_eq_half_sub, show 2 * (Real.arccos c / 2) = Real.arccos c by ring, hc]
    ring
  have hsin : 0 ≤ Real.sin (Real.arccos c / 2) :=
    Real.sin_nonneg_of_nonneg_of_le_pi (by linarith) (by linarith [Real.pi_pos])
  rw [hs, Real.sqrt_sq hsin, Real.arcsin_sin (by linarith [Real.pi_pos]) (by linarith)]
  ring

/-- Over the reals the computation never meets a domain error, and its three results
are the total real functions applied to the radicand. -/
theorem compute_real (lat1 lon1 lat2 lon2 : ℝ) :
    (compute realLibm lat1 lon1 lat2 lon2).t
        = some (Real.sqrt (radicand (radians lat1) (radians lon1) (radians lat2) (radians lon2)))
    ∧ (compute realLibm lat1 lon1 lat2 lon2).distance_miles
        = some (2 * 3963 * Real.arcsin (Real.sqrt
            (radicand (radians lat1) (radians lon1) (radians lat2) (radians lon2))))
    ∧ (compute realLibm lat1 lon1 lat2 lon2).distance_km
        = some (2 * 6378 * Real.arcsin (Real.sqrt
            (radicand (radians lat1) (radians lon1) (radians lat2) (radians lon2)))) := by
  have h0 := radicand_nonneg (radians lat1) (radians lon1) (radians lat2) (radians lon2)
  have h1 := sqrt_radicand_le_one (radians lat1) (radians lon1) (radians lat2) (radians lon2)
  have h2 := Real.sqrt_nonneg (radicand (radians lat1) (radians lon1) (radians lat2) (radians lon2))
  have ht : (compute realLibm lat1 lon1 lat2 lon2).t
      = realLibm.sqrt (radicand (radians lat1) (radians lon1) (radians lat2) (radians lon2)) :=
    rfl
  have hm : (compute realLibm lat1 lon1 lat2 lon2).distance_miles
      = ((compute realLibm lat1 lon1 lat2 lon2).t.bind realLibm.asin).map
          (fun a => 2 * 3963 * a) := rfl
  have hk : (compute realLibm lat1 lon1 lat2 lon2).distance_km
      = ((compute realLibm lat1 lon1 lat2 lon2).t.bind realLibm.asin).map
          (fun a => 2 * 6378 * a) := rfl
  rw [hm, hk, ht, realLibm_sqrt h0]
  simp only [Option.some_bind, realLibm_asin (by linarith : (-1:ℝ) ≤ _) h1, Option.map_some']
  exact ⟨trivial, trivial, trivial⟩

theorem two_arcsin_sqrt_radicand (a x b y : ℝ) :
    2 * Real.arcsin (Real.sqrt (radicand a x b y)) = Real.arccos (central_cos a x b y) := by
  rw [radicand_eq_central]
  exact two_arcsin_sqrt _ (neg_one_le_central_cos a x b y) (central_cos_le_one a x b y)

theorem radicand_swap_lon (a x b y : ℝ) :
    Real.sin ((a - b) / 2) ^ 2 + Real.cos a * Real.cos b * Real.sin ((y - x) / 2) ^ 2
      = radicand a x b y := by
  unfold radicand
  rw [show (y - x) / 2 = -((x - y) / 2) by ring, Real.sin_neg, neg_sq]

theorem radicand_symm (a x b y : ℝ) : radicand b y a x = radicand a x b y := by
  unfold radicand
  rw [show (b - a) / 2 = -((a - b) / 2) by ring, show (y - x) / 2 = -((x - y) / 2) by ring,
    Real.sin_neg, Real.sin_neg, neg_sq, neg_sq, mul_comm (Real.cos b)]

theorem radicand_self (a x : ℝ) : radicand a x a x = 0 := by
  simp [radicand]

/-! ## The distance computed by `main` -/

/-- C1: over the reals, for latitudes in [-90, 90] and any longitudes, the two distances
`main` computes are the great-circle distances on spheres of radius 6378 (kilometers)
and 3963 (miles): the haversine expression `2 * R * asin t` equals `R * arccos` of the
spherical law of cosines. -/
theorem distance_eq_great_circle (lat1 lon1 lat2 lon2 : ℝ)
    (_hlat1 : -90 ≤ lat1 ∧ lat1 ≤ 90) (_hlat2 : -90 ≤ lat2 ∧ lat2 ≤ 90) :
    (compute realLibm lat1 lon1 lat2 lon2).distance_km
        = some (great_circle_distance 6378 lat1 lon1 lat2 lon2)
    ∧ (compute realLibm lat1 lon1 lat2 lon2).distance_miles
        = some (great_circle_distance 3963 lat1 lon1 lat2 lon2) := by
  obtain ⟨-, hm, hk⟩ := compute_real lat1 lon1 lat2 lon2
  have e := two_arcsin_sqrt_radicand (radians lat1) (radians lon1) (radians lat2) (radians lon2)
  have g : ∀ R : ℝ, great_circle_distance R lat1 lon1 lat2 lon2
      = R * Real.arccos (central_cos (radians lat1) (radians lon1) (radians lat2) (radians lon2)) :=
    fun _ => rfl
  rw [hm, hk, g, g, ← e]
  constructor <;> congr 1 <;> ring

theorem distance_eq_great_circle_witness :
    ((-90 : ℝ) ≤ 40 ∧ (40 : ℝ) ≤ 90) ∧ ((-90 : ℝ) ≤ -51 ∧ (-51 : ℝ) ≤ 90)
    ∧ (compute realLibm 40 (-74) (-51) 200).distance_km
        = some (great_circle_distance 6378 40 (-74) (-51) 200)
    ∧ (compute realLibm 40 (-74) (-51) 200).distance_miles
        = some (great_circle_distance 3963 40 (-74) (-51) 200) :=
  ⟨by norm_num, by norm_num,
    distance_eq_great_circle 40 (-74) (-51) 200 (by norm_num) (by norm_num)⟩

/-- C2: for all real inputs in degrees, the two distances `main` computes equal the
formula of the comment at lines 59 to 61 evaluated on the radian values
`deg * (pi / 180)`, with `r = 3963` for miles and `r = 6378` for kilometers; taking
`lon1 - lon2` where the comment has `lon2 - lon1` changes nothing. -/
theorem distance_eq_documented (lat1 lon1 lat2 lon2 : ℝ) :
    (compute realLibm lat1 lon1 lat2 lon2).distance_miles
        = some (documented_distance 3963
            (lat1 * (Real.pi / 180)) (lon1 * (Real.pi / 180))
            (lat2 * (Real.pi / 180)) (lon2 * (Real.pi / 180)))
    ∧ (compute realLibm lat1 lon1 lat2 lon2).distance_km
        = some (documented_distance 6378
            (lat1 * (Real.pi / 180)) (lon1 * (Real.pi / 180))
            (lat2 * (Real.pi / 180)) (lon2 * (Real.pi / 180))) := by
  obtain ⟨-, hm, hk⟩ := compute_real lat1 lon1 lat2 lon2
  rw [hm, hk]
  unfold documented_distance
  rw [radicand_swap_lon]
  exact ⟨rfl, rfl⟩

/-- C5: identity. With both points equal, `distance_miles` and `distance_km` are 0. -/
theorem distance_self (lat lon : ℝ) :
    (compute realLibm lat lon lat lon).distance_miles = some 0
    ∧ (compute realLibm lat lon lat lon).distance_km = some 0 := by
  obtain ⟨-, hm, hk⟩ := compute_real lat lon lat lon
  rw [hm, hk, radicand_self]
  simp

/-- C6: symmetry. Exchanging the two points leaves both distances unchanged. -/
theorem distance_symm (lat1 lon1 lat2 lon2 : ℝ) :
    (compute realLibm lat1 lon1 lat2 lon2).distance_miles
        = (compute realLibm lat2 lon2 lat1 lon1).distance_miles
    ∧ (compute realLibm lat1 lon1 lat2 lon2).distance_km
        = (compute realLibm lat2 lon2 lat1 lon1).distance_km := by
  obtain ⟨-, hm, hk⟩ := compute_real lat1 lon1 lat2 lon2
  obtain ⟨-, hm2, hk2⟩ := compute_real lat2 lon2 lat1 lon1
  rw [hm, hk, hm2, hk2, radicand_symm]
  exact ⟨rfl, rfl⟩

theorem arcsin_sqrt_radicand_bounds (a x b y : ℝ) :
    0 ≤ Real.arcsin (Real.sqrt (radicand a x b y))
    ∧ Real.arcsin (Real.sqrt (radicand a x b y)) ≤ Real.pi / 2 :=
  ⟨Real.arcsin_nonneg.mpr (Real.sqrt_nonneg _), Real.arcsin_le_pi_div_two _⟩

/-- C7: range bound. For latitudes in [-90, 90] and longitudes in [-180, 180] the
kilometer distance is a number between 0 and `pi * 6378`, and the mile distance a
number between 0 and `pi * 3963`. -/
theorem distance_range (lat1 lon1 lat2 lon2 : ℝ)
    (_hlat1 : -90 ≤ lat1 ∧ lat1 ≤ 90) (_hlon1 : -180 ≤ lon1 ∧ lon1 ≤ 180)
    (_hlat2 : -90 ≤ lat2 ∧ lat2 ≤ 90) (_hlon2 : -180 ≤ lon2 ∧ lon2 ≤ 180) :
    (∃ d : ℝ, (compute realLibm lat1 lon1 lat2 lon2).distance_km = some d
        ∧ 0 ≤ d ∧ d ≤ Real.pi * 6378)
    ∧ (∃ d : ℝ, (compute realLibm lat1 lon1 lat2 lon2).distance_miles = some d
        ∧ 0 ≤ d ∧ d ≤ Real.pi * 3963) := by
  obtain ⟨-, hm, hk⟩ := compute_real lat1 lon1 lat2 lon2
  obtain ⟨b0, b1⟩ :=
    arcsin_sqrt_radicand_bounds (radians lat1) (radians lon1) (radians lat2) (radians lon2)
  refine ⟨⟨_, hk, ?_, ?_⟩, ⟨_, hm, ?_, ?_⟩⟩ <;> nlinarith

theorem distance_range_witness :
    (∃ d : ℝ, (compute realLibm 40 (-74) 51 (-1)).distance_km = some d
        ∧ 0 ≤ d ∧ d ≤ Real.pi * 6378)
    ∧ (∃ d : ℝ, (compute realLibm 40 (-74) 51 (-1)).distance_miles = some d
        ∧ 0 ≤ d ∧ d ≤ Real.pi * 3963) :=
  distance_range 40 (-74) 51 (-1) (by norm_num) (by norm_num) (by norm_num) (by norm_num)

/-- C8: for latitudes in [-90, 90] and longitudes in [-180, 180] the intermediate value
`t` of line 62 is a number in [0, 1]; `asin` is therefore applied inside its domain,
and neither `t` nor a distance is the result of a domain error. -/
theorem t_in_unit_interval (lat1 lon1 lat2 lon2 : ℝ)
    (_hlat1 : -90 ≤ lat1 ∧ lat1 ≤ 90) (_hlon1 : -180 ≤ lon1 ∧ lon1 ≤ 180)
    (_hlat2 : -90 ≤ lat2 ∧ lat2 ≤ 90) (_hlon2 : -180 ≤ lon2 ∧ lon2 ≤ 180) :
    ∃ t : ℝ, (compute realLibm lat1 lon1 lat2 lon2).t = some t
      ∧ 0 ≤ t ∧ t ≤ 1
      ∧ realLibm.asin t = some (Real.arcsin t)
      ∧ (compute realLibm lat1 lon1 lat2 lon2).distance_miles ≠ none
      ∧ (compute realLibm lat1 lon1 lat2 lon2).distance_km ≠ none := by
  obtain ⟨ht, hm, hk⟩ := compute_real lat1 lon1 lat2 lon2
  have h0 := Real.sqrt_nonneg
    (radicand (radians lat1) (radians lon1) (radians lat2) (radians lon2))
  have h1 := sqrt_radicand_le_one (radians lat1) (radians lon1) (radians lat2) (radians lon2)
  refine ⟨_, ht, h0, h1, realLibm_asin (by linarith) h1, ?_, ?_⟩
  · rw [hm]; exact Option.some_ne_none _
  · rw [hk]; exact Option.some_ne_none _

theorem t_in_unit_interval_witness :
    ∃ t : ℝ, (compute realLibm 90 180 (-90) (-180)).t = some t
      ∧ 0 ≤ t ∧ t ≤ 1
      ∧ realLibm.asin t = some (Real.arcsin t)
      ∧ (compute realLibm 90 180 (-90) (-180)).distance_miles ≠ none
      ∧ (compute realLibm 90 180 (-90) (-180)).distance_km ≠ none :=
  t_in_unit_interval 90 180 (-90) (-180)
    (by norm_num) (by norm_num) (by norm_num) (by norm_num)

theorem radicand_quarter_turn :
    radicand (radians 0) (radians 0) (radians 0) (radians 90) = 1 / 2 := by
  have e : (radians 0 - radians 90) / 2 = -(Real.pi / 4) := by unfold radians; ring
  have z : radians 0 = 0 := by unfold radians; ring
  unfold radicand
  rw [e, z]
  simp only [sub_self, zero_div, Real.sin_zero, Real.cos_zero, Real.sin_neg,
    Real.sin_pi_div_four]
  have h2 : Real.sqrt 2 ^ 2 = 2 := Real.sq_sqrt (by norm_num)
  nlinarith

theorem sqrt_half : Real.sqrt (1 / 2) = Real.sqrt 2 / 2 := by
  have h2 : Real.sqrt 2 ^ 2 = 2 := Real.sq_sqrt (by norm_num)
  rw [show (1 / 2 : ℝ) = (Real.sqrt 2 / 2) ^ 2 by nlinarith]
  exact Real.sqrt_sq (by positivity)

theorem arcsin_sqrt_half : Real.arcsin (Real.sqrt 2 / 2) = Real.pi / 4 := by
  rw [← Real.sin_pi_div_four]
  exact Real.arcsin_sin (by linarith [Real.pi_pos]) (by linarith [Real.pi_pos])

theorem sqrt_two_div_two_lt_one : Real.sqrt 2 / 2 < 1 := by
  have h2 : Real.sqrt 2 ^ 2 = 2 := Real.sq_sqrt (by norm_num)
  have h0 := Real.sqrt_nonneg 2
  nlinarith

/-- C9, as the claim states it, fails: for the input (0, 0, 0, 90) the value `t` is
not 1 and the kilometer distance is not `6378 * pi`. -/
theorem quarter_turn_not_saturated :
    (compute realLibm 0 0 0 90).t ≠ some 1
    ∧ (compute realLibm 0 0 0 90).distance_km ≠ some (6378 * Real.pi) := by
  obtain ⟨ht, -, hk⟩ := compute_real 0 0 0 90
  rw [ht, hk, radicand_quarter_turn, sqrt_half, arcsin_sqrt_half]
  constructor
  · intro h
    have := Option.some.inj h
    linarith [sqrt_two_div_two_lt_one]
  · intro h
    have := Option.some.inj h
    linarith [Real.pi_pos]

/-- C9, amended: for the input (0, 0, 0, 90) the value `t` is the square root of one
half and the kilometer distance is `2 * 6378 * asin t = 6378 * pi / 2`, a quarter of
the circumference. -/
theorem quarter_turn_distance :
    (compute realLibm 0 0 0 90).t = some (Real.sqrt 2 / 2)
    ∧ (compute realLibm 0 0 0 90).distance_km
        = some (2 * 6378 * Real.arcsin (Real.sqrt 2 / 2))
    ∧ (compute realLibm 0 0 0 90).distance_km = some (6378 * Real.pi / 2) := by
  obtain ⟨ht, -, hk⟩ := compute_real 0 0 0 90
  rw [ht, hk, radicand_quarter_turn, sqrt_half]
  refine ⟨rfl, rfl, ?_⟩
  rw [arcsin_sqrt_half]
  congr 1
  ring

theorem radicand_antipode (a x y : ℝ) (h : x - y = Real.pi ∨ x - y = -Real.pi) :
    radicand a x (-a) y = 1 := by
  have hs : Real.sin ((x - y) / 2) ^ 2 = 1 := by
    rcases h with h | h <;> rw [h]
    · rw [Real.sin_pi_div_two]; norm_num
    · rw [show -Real.pi / 2 = -(Real.pi / 2) by ring, Real.sin_neg, Real.sin_pi_div_two]
      norm_num
  unfold radicand
  rw [hs, show (a - -a) / 2 = a by ring, Real.cos_neg]
  nlinarith [Real.sin_sq_add_cos_sq a]

theorem compute_real_of_radicand_one (lat1 lon1 lat2 lon2 : ℝ)
    (h : radicand (radians lat1) (radians lon1) (radians lat2) (radians lon2) = 1) :
    (compute realLibm lat1 lon1 lat2 lon2).t = some 1
    ∧ (compute realLibm lat1 lon1 lat2 lon2).distance_km = some (6378 * Real.pi)
    ∧ (compute realLibm lat1 lon1 lat2 lon2).distance_miles = some (3963 * Real.pi) := by
  obtain ⟨ht, hm, hk⟩ := compute_real lat1 lon1 lat2 lon2
  rw [ht, hm, hk, h, Real.sqrt_one, Real.arcsin_one]
  refine ⟨rfl, ?_, ?_⟩ <;> congr 1 <;> ring

/-- C3: whenever the number of command-line arguments after the program name is not
four (`argc` is not 5), `main` writes the usage line and nothing else and returns -1,
a non-zero status. The outcome is the same for every platform, so no conversion by
`sscanf` and no distance computation takes part in it. -/
theorem usage_on_wrong_arg_count {α : Type} [Field α] (p : Platform α)
    (argv : List String) (h : argv.length ≠ 5) :
    main p argv = { stdout := ["Usage: haversine lat1 lon1 lat2 lon2"], status := -1 }
    ∧ (main p argv).status ≠ 0 := by
  have e : main p argv
      = { stdout := ["Usage: haversine lat1 lon1 lat2 lon2"], status := -1 } := by
    unfold main
    rw [dif_pos h]
    rfl
  rw [e]
  exact ⟨rfl, by decide⟩

theorem usage_on_wrong_arg_count_witness :
    main (⟨realLibm, fun _ => none, fun _ _ => "", fun _ => 0⟩ : Platform ℝ)
        ["haversine", "51.5", "-0.12", "40.7", "-74", "extra"]
      = { stdout := ["Usage: haversine lat1 lon1 lat2 lon2"], status := -1 }
    ∧ (main (⟨realLibm, fun _ => none, fun _ _ => "", fun _ => 0⟩ : Platform ℝ)
        ["haversine", "51.5", "-0.12", "40.7", "-74", "extra"]).status ≠ 0 :=
  usage_on_wrong_arg_count _ _ (by decide)

/-- C4: `main` returns a non-zero status exactly when the argument count is not four
(`argc` is not 5). With four arguments, whatever they contain and whatever `sscanf`
makes of them, `main` returns 0 and no line of its output is the usage line. -/
theorem status_nonzero_iff {α : Type} [Field α] (p : Platform α) (argv : List String) :
    ((main p argv).status ≠ 0 ↔ argv.length ≠ 5)
    ∧ (argv.length = 5 →
        (main p argv).status = 0
        ∧ "Usage: haversine lat1 lon1 lat2 lon2" ∉ (main p argv).stdout) := by
  have right : argv.length = 5 →
      (main p argv).status = 0
      ∧ "Usage: haversine lat1 lon1 lat2 lon2" ∉ (main p argv).stdout := by
    intro h
    unfold main
    rw [dif_neg (by simpa using h)]
    refine ⟨rfl, ?_⟩
    simp only [List.mem_cons, List.mem_singleton, List.not_mem_nil, or_false, not_or]
    refine ⟨?_, ?_, ?_, ?_⟩ <;> intro e <;> have := congrArg String.data e <;>
      simp at this
  refine ⟨⟨fun hs hl => hs (right hl).1, fun hl => ?_⟩, right⟩
  unfold main
  rw [dif_pos hl]
  decide

theorem status_nonzero_iff_witness :
    (main (⟨realLibm, fun _ => none, fun _ _ => "", fun _ => 0⟩ : Platform ℝ)
        ["haversine", "north", "1e999", "-725.5", ""]).status = 0
    ∧ "Usage: haversine lat1 lon1 lat2 lon2"
        ∉ (main (⟨realLibm, fun _ => none, fun _ _ => "", fun _ => 0⟩ : Platform ℝ)
            ["haversine", "north", "1e999", "-725.5", ""]).stdout :=
  (status_nonzero_iff _ _).2 (by decide)

/-! ## Relations between the results -/

/-- C11: unit consistency. For every input the two results are numbers with
`distance_miles * 6378 = distance_km * 3963`, hence
`distance_miles / distance_km = 3963 / 6378` whenever `distance_km` is not zero. -/
theorem unit_consistency (lat1 lon1 lat2 lon2 : ℝ) :
    ∃ dm dk : ℝ, (compute realLibm lat1 lon1 lat2 lon2).distance_miles = some dm
      ∧ (compute realLibm lat1 lon1 lat2 lon2).distance_km = some dk
      ∧ dm * 6378 = dk * 3963
      ∧ (dk ≠ 0 → dm / dk = 3963 / 6378) := by
  obtain ⟨-, hm, hk⟩ := compute_real lat1 lon1 lat2 lon2
  refine ⟨_, _, hm, hk, by ring, fun h => ?_⟩
  rw [div_eq_div_iff h (by norm_num)]
  ring

theorem unit_consistency_witness :
    ∃ dm dk : ℝ, (compute realLibm 0 0 0 180).distance_miles = some dm
      ∧ (compute realLibm 0 0 0 180).distance_km = some dk
      ∧ dk ≠ 0 ∧ dm / dk = 3963 / 6378 := by
  obtain ⟨dm, dk, hm, hk, -, hr⟩ := unit_consistency 0 0 0 180
  have h1 : radicand (radians 0) (radians 0) (radians 0) (radians 180) = 1 := by
    have := radicand_antipode (radians 0) (radians 0) (radians 180)
      (Or.inr (by unfold radians; ring))
    rwa [show -radians 0 = radians 0 by unfold radians; ring] at this
  have hk2 := (compute_real_of_radicand_one 0 0 0 180 h1).2.1
  have hne : dk ≠ 0 := by
    rw [hk] at hk2
    rw [Option.some.inj hk2]
    exact mul_ne_zero (by norm_num) Real.pi_ne_zero
  exact ⟨dm, dk, hm, hk, hne, hr hne⟩

/-- C13: with exactly four arguments, standard output is four lines in this order:
the echo line `Calculating distance between (lat1,lon1) and (lat2,lon2)` with the four
converted values in input order (written at precision 9), the header `Distance: `, two
spaces followed by `distance_miles` and ` miles`, and two spaces followed by
`distance_km` and ` kilometers` (both written at precision 4). -/
theorem output_lines {α : Type} [Field α] (p : Platform α) (prog a1 a2 a3 a4 : String) :
    (main p [prog, a1, a2, a3, a4]).stdout =
      [ "Calculating distance between ("
          ++ p.show_double 9 (some ((p.sscanf_lf a1).getD (p.indeterminate 0))) ++ ","
          ++ p.show_double 9 (some ((p.sscanf_lf a2).getD (p.indeterminate 1)))
          ++ ") and ("
          ++ p.show_double 9 (some ((p.sscanf_lf a3).getD (p.indeterminate 2))) ++ ","
          ++ p.show_double 9 (some ((p.sscanf_lf a4).getD (p.indeterminate 3))) ++ ")",
        "Distance: ",
        "  " ++ p.show_double 4 (compute p.libm
            ((p.sscanf_lf a1).getD (p.indeterminate 0))
            ((p.sscanf_lf a2).getD (p.indeterminate 1))
            ((p.sscanf_lf a3).getD (p.indeterminate 2))
            ((p.sscanf_lf a4).getD (p.indeterminate 3))).distance_miles ++ " miles",
        "  " ++ p.show_double 4 (compute p.libm
            ((p.sscanf_lf a1).getD (p.indeterminate 0))
            ((p.sscanf_lf a2).getD (p.indeterminate 1))
            ((p.sscanf_lf a3).getD (p.indeterminate 2))
            ((p.sscanf_lf a4).getD (p.indeterminate 3))).distance_km ++ " kilometers" ] := by
  have e : ∀ x y : String, x ++ ")" ++ " and (" ++ y = x ++ ") and (" ++ y := by
    intro x y
    rw [String.append_assoc x ")" " and ("]
    rfl
  unfold main
  rw [dif_neg (by simp)]
  simp only [List.getElem_cons_succ, List.getElem_cons_zero, e]

/-- C15: for all real inputs, latitudes outside [-90, 90] included, the radicand of
line 62 equals `(1 - c) / 2` for the cosine `c` of the central angle and lies in
[0, 1]; `sqrt` gets no negative argument, `t` is a number in [0, 1], `asin` is applied
inside its domain and both distances are numbers. -/
theorem radicand_safe_for_all_inputs (lat1 lon1 lat2 lon2 : ℝ) :
    (compute realLibm lat1 lon1 lat2 lon2).sdlat
        + Real.cos (compute realLibm lat1 lon1 lat2 lon2).lat_1_rad
          * Real.cos (compute realLibm lat1 lon1 lat2 lon2).lat_2_rad
          * (compute realLibm lat1 lon1 lat2 lon2).sdlon
      = (1 - central_cos (radians lat1) (radians lon1) (radians lat2) (radians lon2)) / 2
    ∧ 0 ≤ (compute realLibm lat1 lon1 lat2 lon2).sdlat
        + Real.cos (compute realLibm lat1 lon1 lat2 lon2).lat_1_rad
          * Real.cos (compute realLibm lat1 lon1 lat2 lon2).lat_2_rad
          * (compute realLibm lat1 lon1 lat2 lon2).sdlon
    ∧ (compute realLibm lat1 lon1 lat2 lon2).sdlat
        + Real.cos (compute realLibm lat1 lon1 lat2 lon2).lat_1_rad
          * Real.cos (compute realLibm lat1 lon1 lat2 lon2).lat_2_rad
          * (compute realLibm lat1 lon1 lat2 lon2).sdlon ≤ 1
    ∧ ∃ t : ℝ, (compute realLibm lat1 lon1 lat2 lon2).t = some t
        ∧ 0 ≤ t ∧ t ≤ 1
        ∧ realLibm.asin t = some (Real.arcsin t)
        ∧ (compute realLibm lat1 lon1 lat2 lon2).distance_miles
            = some (2 * 3963 * Real.arcsin t)
        ∧ (compute realLibm lat1 lon1 lat2 lon2).distance_km
            = some (2 * 6378 * Real.arcsin t) := by
  have hr : (compute realLibm lat1 lon1 lat2 lon2).sdlat
        + Real.cos (compute realLibm lat1 lon1 lat2 lon2).lat_1_rad
          * Real.cos (compute realLibm lat1 lon1 lat2 lon2).lat_2_rad
          * (compute realLibm lat1 lon1 lat2 lon2).sdlon
      = radicand (radians lat1) (radians lon1) (radians lat2) (radians lon2) := rfl
  obtain ⟨ht, hm, hk⟩ := compute_real lat1 lon1 lat2 lon2
  have h1 := sqrt_radicand_le_one (radians lat1) (radians lon1) (radians lat2) (radians lon2)
  have h0 := Real.sqrt_nonneg
    (radicand (radians lat1) (radians lon1) (radians lat2) (radians lon2))
  rw [hr]
  exact ⟨radicand_eq_central _ _ _ _, radicand_nonneg _ _ _ _, radicand_le_one _ _ _ _,
    _, ht, h0, h1, realLibm_asin (by linarith) h1, hm, hk⟩

theorem exp_mul_I_series (x : ℝ) :
    (∑ m ∈ Finset.range 10, ((x : ℂ) * Complex.I) ^ m / (m.factorial : ℂ))
      = ((1 - x ^ 2 / 2 + x ^ 4 / 24 - x ^ 6 / 720 + x ^ 8 / 40320 : ℝ) : ℂ)
        + ((x - x ^ 3 / 6 + x ^ 5 / 120 - x ^ 7 / 5040 + x ^ 9 / 362880 : ℝ) : ℂ)
          * Complex.I := by
  have i2 : Complex.I ^ 2 = -1 := Complex.I_sq
  have i3 : Complex.I ^ 3 = -Complex.I := by rw [pow_succ, i2]; ring
  have i4 : Complex.I ^ 4 = 1 := by rw [pow_succ, i3]; ring_nf; rw [i2]; ring
  have i5 : Complex.I ^ 5 = Complex.I := by rw [pow_succ, i4]; ring
  have i6 : Complex.I ^ 6 = -1 := by rw [pow_succ, i5, ← sq, i2]
  have i7 : Complex.I ^ 7 = -Complex.I := by rw [pow_succ, i6]; ring
  have i8 : Complex.I ^ 8 = 1 := by rw [pow_succ, i7]; ring_nf; rw [i2]; ring
  have i9 : Complex.I ^ 9 = Complex.I := by rw [pow_succ, i8]; ring
  simp only [Finset.sum_range_succ, Finset.range_zero, Finset.sum_empty, mul_pow,
    i2, i3, i4, i5, i6, i7, i8, i9, Nat.factorial]
  push_cast
  ring

theorem exp_mul_I_remainder (x : ℝ) (hx : |x| ≤ 1) :
    Complex.abs (Complex.exp (x * Complex.I)
        - ∑ m ∈ Finset.range 10, ((x : ℂ) * Complex.I) ^ m / (m.factorial : ℂ))
      ≤ 11 / 36288000 := by
  have h := Complex.exp_bound (x := (x : ℂ) * Complex.I) (by simpa using hx) (n := 10)
    (by norm_num)
  have e : Complex.abs ((x : ℂ) * Complex.I) = |x| := by simp
  rw [e] at h
  have hp : |x| ^ 10 ≤ 1 := pow_le_one₀ (abs_nonneg x) hx
  refine h.trans ?_
  have hc : ((Nat.succ 10 : ℕ) : ℝ) * ((Nat.factorial 10 : ℝ) * ((10 : ℕ) : ℝ))⁻¹
      = 11 / 36288000 := by
    norm_num [Nat.factorial]
  rw [hc]
  nlinarith

theorem cos_taylor (x : ℝ) (hx : |x| ≤ 1) :
    |Real.cos x - (1 - x ^ 2 / 2 + x ^ 4 / 24 - x ^ 6 / 720 + x ^ 8 / 40320)|
      ≤ 11 / 36288000 := by
  have h := exp_mul_I_remainder x hx
  rw [exp_mul_I_series] at h
  refine le_trans ?_ h
  refine le_trans (le_of_eq ?_) (Complex.abs_re_le_abs _)
  congr 1
  simp only [Complex.sub_re, Complex.add_re, Complex.mul_re, Complex.ofReal_re,
    Complex.ofReal_im, Complex.I_re, Complex.I_im, Complex.exp_ofReal_mul_I_re]
  ring

theorem sin_taylor (x : ℝ) (hx : |x| ≤ 1) :
    |Real.sin x - (x - x ^ 3 / 6 + x ^ 5 / 120 - x ^ 7 / 5040 + x ^ 9 / 362880)|
      ≤ 11 / 36288000 := by
  have h := exp_mul_I_remainder x hx
  rw [exp_mul_I_series] at h
  refine le_trans ?_ h
  refine le_trans (le_of_eq ?_) (Complex.abs_im_le_abs _)
  congr 1
  simp only [Complex.sub_im, Complex.add_im, Complex.mul_im, Complex.ofReal_re,
    Complex.ofReal_im, Complex.I_re, Complex.I_im, Complex.exp_ofReal_mul_I_im]
  ring

theorem cos_enclosure (x xl xh : ℝ) (h0 : 0 ≤ xl) (hl : xl ≤ x) (hh : x ≤ xh)
    (h1 : xh ≤ 1) :
    (1 - xh ^ 2 / 2 + xh ^ 4 / 24 - xh ^ 6 / 720 + xh ^ 8 / 40320) - 11 / 36288000
        ≤ Real.cos x
    ∧ Real.cos x
        ≤ (1 - xl ^ 2 / 2 + xl ^ 4 / 24 - xl ^ 6 / 720 + xl ^ 8 / 40320) + 11 / 36288000 := by
  have hpi := Real.pi_gt_three
  have m1 : Real.cos xh ≤ Real.cos x :=
    Real.cos_le_cos_of_nonneg_of_le_pi (by linarith) (by linarith) hh
  have m2 : Real.cos x ≤ Real.cos xl :=
    Real.cos_le_cos_of_nonneg_of_le_pi h0 (by linarith) hl
  have t1 := abs_le.mp (cos_taylor xh (abs_le.mpr ⟨by linarith, h1⟩))
  have t2 := abs_le.mp (cos_taylor xl (abs_le.mpr ⟨by linarith, by linarith⟩))
  constructor <;> linarith [t1.1, t2.2]

theorem sin_enclosure (x xl xh : ℝ) (h0 : 0 ≤ xl) (hl : xl ≤ x) (hh : x ≤ xh)
    (h1 : xh ≤ 1) :
    (xl - xl ^ 3 / 6 + xl ^ 5 / 120 - xl ^ 7 / 5040 + xl ^ 9 / 362880) - 11 / 36288000
        ≤ Real.sin x
    ∧ Real.sin x
        ≤ (xh - xh ^ 3 / 6 + xh ^ 5 / 120 - xh ^ 7 / 5040 + xh ^ 9 / 362880)
          + 11 / 36288000 := by
  have hpi := Real.pi_gt_three
  have m1 : Real.sin xl ≤ Real.sin x :=
    Real.sin_le_sin_of_le_of_le_pi_div_two (by linarith) (by linarith) hl
  have m2 : Real.sin x ≤ Real.sin xh :=
    Real.sin_le_sin_of_le_of_le_pi_div_two (by linarith) (by linarith) hh
  have t1 := abs_le.mp (sin_taylor xl (abs_le.mpr ⟨by linarith, by linarith⟩))
  have t2 := abs_le.mp (sin_taylor xh (abs_le.mpr ⟨by linarith, h1⟩))
  constructor <;> linarith [t1.1, t2.2]

theorem ny_london_radicand :
    radicand (radians 40.7128) (radians (-74.0060)) (radians 51.5074) (radians (-0.1278))
      = Real.sin (5.3973 * (Real.pi / 180)) ^ 2
        + Real.cos (40.7128 * (Real.pi / 180)) * Real.cos (51.5074 * (Real.pi / 180))
          * Real.sin (36.9391 * (Real.pi / 180)) ^ 2 := by
  unfold radicand radians
  rw [show (40.7128 * (Real.pi / 180) - 51.5074 * (Real.pi / 180)) / 2
        = -(5.3973 * (Real.pi / 180)) by ring,
    show (-74.0060 * (Real.pi / 180) - -0.1278 * (Real.pi / 180)) / 2
        = -(36.9391 * (Real.pi / 180)) by ring,
    Real.sin_neg, Real.sin_neg, neg_sq, neg_sq]

theorem ny_london_radicand_bounds :
    (0.423342 : ℝ) ^ 2
        ≤ radicand (radians 40.7128) (radians (-74.0060)) (radians 51.5074)
            (radians (-0.1278))
    ∧ radicand (radians 40.7128) (radians (-74.0060)) (radians 51.5074)
            (radians (-0.1278))
        ≤ (0.423404 : ℝ) ^ 2 := by
  have p1 := Real.pi_gt_d6
  have p2 := Real.pi_lt_d6
  obtain ⟨a1, a2⟩ := cos_enclosure (40.7128 * (Real.pi / 180)) 0.710572 0.710573
    (by norm_num) (by linarith) (by linarith) (by norm_num)
  obtain ⟨b1, b2⟩ := cos_enclosure (51.5074 * (Real.pi / 180)) 0.898973 0.898974
    (by norm_num) (by linarith) (by linarith) (by norm_num)
  obtain ⟨u1, u2⟩ := sin_enclosure (5.3973 * (Real.pi / 180)) 0.094200 0.094201
    (by norm_num) (by linarith) (by linarith) (by norm_num)
  obtain ⟨v1, v2⟩ := sin_enclosure (36.9391 * (Real.pi / 180)) 0.644708 0.644709
    (by norm_num) (by linarith) (by linarith) (by norm_num)
  have A1 : (0.757987 : ℝ) ≤ Real.cos (40.7128 * (Real.pi / 180)) :=
    le_trans (by norm_num) a1
  have A2 : Real.cos (40.7128 * (Real.pi / 180)) ≤ 0.757990 := le_trans a2 (by norm_num)
  have B1 : (0.622413 : ℝ) ≤ Real.cos (51.5074 * (Real.pi / 180)) :=
    le_trans (by norm_num) b1
  have B2 : Real.cos (51.5074 * (Real.pi / 180)) ≤ 0.622415 := le_trans b2 (by norm_num)
  have U1 : (0.094060 : ℝ) ≤ Real.sin (5.3973 * (Real.pi / 180)) :=
    le_trans (by norm_num) u1
  have U2 : Real.sin (5.3973 * (Real.pi / 180)) ≤ 0.094063 := le_trans u2 (by norm_num)
  have V1 : (0.600964 : ℝ) ≤ Real.sin (36.9391 * (Real.pi / 180)) :=
    le_trans (by norm_num) v1
  have V2 : Real.sin (36.9391 * (Real.pi / 180)) ≤ 0.600967 := le_trans v2 (by norm_num)
  have US1 : (0.094060 : ℝ) ^ 2 ≤ Real.sin (5.3973 * (Real.pi / 180)) ^ 2 :=
    pow_le_pow_left₀ (by norm_num) U1 2
  have US2 : Real.sin (5.3973 * (Real.pi / 180)) ^ 2 ≤ (0.094063 : ℝ) ^ 2 :=
    pow_le_pow_left₀ (by linarith) U2 2
  have VS1 : (0.600964 : ℝ) ^ 2 ≤ Real.sin (36.9391 * (Real.pi / 180)) ^ 2 :=
    pow_le_pow_left₀ (by norm_num) V1 2
  have VS2 : Real.sin (36.9391 * (Real.pi / 180)) ^ 2 ≤ (0.600967 : ℝ) ^ 2 :=
    pow_le_pow_left₀ (by linarith) V2 2
  have AB1 : (0.757987 : ℝ) * 0.622413
      ≤ Real.cos (40.7128 * (Real.pi / 180)) * Real.cos (51.5074 * (Real.pi / 180)) :=
    mul_le_mul A1 B1 (by norm_num) (by linarith)
  have AB2 : Real.cos (40.7128 * (Real.pi / 180)) * Real.cos (51.5074 * (Real.pi / 180))
      ≤ (0.757990 : ℝ) * 0.622415 :=
    mul_le_mul A2 B2 (by linarith) (by norm_num)
  have P1 : (0.757987 : ℝ) * 0.622413 * (0.600964 : ℝ) ^ 2
      ≤ Real.cos (40.7128 * (Real.pi / 180)) * Real.cos (51.5074 * (Real.pi / 180))
        * Real.sin (36.9391 * (Real.pi / 180)) ^ 2 :=
    mul_le_mul AB1 VS1 (by norm_num) (by linarith)
  have P2 : Real.cos (40.7128 * (Real.pi / 180)) * Real.cos (51.5074 * (Real.pi / 180))
        * Real.sin (36.9391 * (Real.pi / 180)) ^ 2
      ≤ (0.757990 : ℝ) * 0.622415 * (0.600967 : ℝ) ^ 2 :=
    mul_le_mul AB2 VS2 (by positivity) (by norm_num)
  rw [ny_london_radicand]
  constructor
  · refine le_trans ?_ (add_le_add US1 P1)
    norm_num
  · refine le_trans (add_le_add US2 P2) ?_
    norm_num

theorem ny_london_angle :
    (0.43713 : ℝ) ≤ Real.arcsin (Real.sqrt (radicand (radians 40.7128)
        (radians (-74.0060)) (radians 51.5074) (radians (-0.1278))))
    ∧ Real.arcsin (Real.sqrt (radicand (radians 40.7128)
        (radians (-74.0060)) (radians 51.5074) (radians (-0.1278)))) ≤ 0.43720 := by
  have hpi := Real.pi_gt_three
  obtain ⟨h1, h2⟩ := ny_london_radicand_bounds
  obtain ⟨-, s2⟩ := sin_enclosure 0.43713 0.43713 0.43713 (by norm_num) le_rfl le_rfl
    (by norm_num)
  obtain ⟨s1, -⟩ := sin_enclosure 0.43720 0.43720 0.43720 (by norm_num) le_rfl le_rfl
    (by norm_num)
  have S2 : Real.sin 0.43713 ≤ 0.423342 := le_trans s2 (by norm_num)
  have S1 : (0.423404 : ℝ) ≤ Real.sin 0.43720 := le_trans (by norm_num) s1
  have S0 : 0 ≤ Real.sin 0.43713 :=
    Real.sin_nonneg_of_nonneg_of_le_pi (by norm_num) (by linarith)
  constructor
  · have k : Real.sin 0.43713 ≤ Real.sqrt (radicand (radians 40.7128)
        (radians (-74.0060)) (radians 51.5074) (radians (-0.1278))) :=
      le_trans S2 ((Real.le_sqrt' (by norm_num)).mpr h1)
    have := Real.monotone_arcsin k
    rwa [Real.arcsin_sin (by linarith) (by linarith)] at this
  · have k : Real.sqrt (radicand (radians 40.7128)
        (radians (-74.0060)) (radians 51.5074) (radians (-0.1278))) ≤ Real.sin 0.43720 :=
      le_trans (Real.sqrt_le_iff.mpr ⟨by norm_num, h2⟩) S1
    have := Real.monotone_arcsin k
    rwa [Real.arcsin_sin (by linarith) (by linarith)] at this

/-- C12, as the claim states it, fails: for New York to London
(40.7128, -74.0060, 51.5074, -0.1278) the two distances are not both within 5 of
5570 kilometers and 3461 miles, because the kilometer distance exceeds 5575. -/
theorem ny_london_not_within_five :
    ¬ ∃ dk dm : ℝ,
        (compute realLibm 40.7128 (-74.0060) 51.5074 (-0.1278)).distance_km = some dk
        ∧ (compute realLibm 40.7128 (-74.0060) 51.5074 (-0.1278)).distance_miles = some dm
        ∧ |dk - 5570| ≤ 5 ∧ |dm - 3461| ≤ 5 := by
  rintro ⟨dk, dm, hk, -, hdk, -⟩
  obtain ⟨-, -, hk2⟩ := compute_real 40.7128 (-74.0060) 51.5074 (-0.1278)
  obtain ⟨l, -⟩ := ny_london_angle
  rw [hk2] at hk
  have e := Option.some.inj hk
  have := (abs_le.mp hdk).2
  rw [← e] at this
  linarith

/-- C12, amended: for New York to London (40.7128, -74.0060, 51.5074, -0.1278) the
computed distance is about 5576 km and about 3465 miles: `distance_km` lies in
[5576, 5577] and `distance_miles` in [3464, 3466], so that
`|distance_km - 5570| ≤ 7` and `|distance_miles - 3461| ≤ 5`. -/
theorem ny_london_distance :
    ∃ dk dm : ℝ,
      (compute realLibm 40.7128 (-74.0060) 51.5074 (-0.1278)).distance_km = some dk
      ∧ (compute realLibm 40.7128 (-74.0060) 51.5074 (-0.1278)).distance_miles = some dm
      ∧ 5576 ≤ dk ∧ dk ≤ 5577 ∧ 3464 ≤ dm ∧ dm ≤ 3466
      ∧ |dk - 5570| ≤ 7 ∧ |dm - 3461| ≤ 5 := by
  obtain ⟨-, hm, hk⟩ := compute_real 40.7128 (-74.0060) 51.5074 (-0.1278)
  obtain ⟨l, u⟩ := ny_london_angle
  refine ⟨_, _, hk, hm, by linarith, by linarith, by linarith, by linarith, ?_, ?_⟩
  · rw [abs_le]; constructor <;> linarith
  · rw [abs_le]; constructor <;> linarith

/-! ## The program's constant `pi<double>()` -/

end Haversine
